import Mathlib

/-!
Verification of the vibeterm session bridge (`src/server.js`) against its
natural-language specification.  The server is shallowly embedded: bytes are
natural numbers, JS `Buffer`s are `List Nat`, the mutable module-level
variables (`ptyProcess`, `sessionInfo`, `scrollbackBuffer`, the persisted
`.last-session.json` file) become fields of an explicit `ServerState`, and
each HTTP / WebSocket / pty callback becomes a pure state-transition
function returning the new state together with the list of emitted
side-effect events (broadcasts, process kills, host-session kills).
-/

namespace Vibeterm

/-- Constant `SCROLLBACK_MAX` from `server.js` line 14. -/
def SCROLLBACK_MAX : Nat := 50000

/-- The last `n` elements of a list, which is what
`combined.slice(combined.length - SCROLLBACK_MAX)` keeps.  For
`l.length ≤ n` this is `l` itself. -/
def lastN (n : Nat) (l : List Nat) : List Nat :=
  l.drop (l.length - n)

/-- Function `appendScrollback` from `server.js` lines 35-41: concatenate the buffer
with the incoming chunk and, if the result exceeds `SCROLLBACK_MAX`, keep
only the final `SCROLLBACK_MAX` bytes.  No other transformation of the data
takes place before storage. -/
def appendScrollback (buf chunk : List Nat) : List Nat :=
  let combined := buf ++ chunk
  if combined.length > SCROLLBACK_MAX then
    combined.drop (combined.length - SCROLLBACK_MAX)
  else
    combined

theorem appendScrollback_eq_lastN (buf chunk : List Nat) :
    appendScrollback buf chunk = lastN SCROLLBACK_MAX (buf ++ chunk) := by
  unfold appendScrollback lastN
  dsimp only
  split
  · rfl
  · rename_i h
    have hle : (buf ++ chunk).length ≤ SCROLLBACK_MAX := Nat.le_of_not_lt h
    rw [Nat.sub_eq_zero_of_le hle, List.drop_zero]

theorem lastN_length_le (n : Nat) (l : List Nat) : (lastN n l).length ≤ n := by
  unfold lastN
  simp only [List.length_drop]
  omega

/-- Lemma: `lastN` only looks at a suffix: prepending data in front of a suffix that
is already at least `k` long does not change the last `k` elements. -/
theorem lastN_suffix (x y : List Nat) (k : Nat) (hk : k ≤ y.length) :
    lastN k (x ++ y) = lastN k y := by
  unfold lastN
  have hm : (x ++ y).length - k = x.length + (y.length - k) := by
    simp only [List.length_append]
    omega
  rw [hm, List.drop_append_eq_append_drop]
  have h1 : x.length + (y.length - k) - x.length = y.length - k := by omega
  have h2 : x.drop (x.length + (y.length - k)) = [] :=
    List.drop_eq_nil_of_le (by omega)
  rw [h1, h2, List.nil_append]

/-- Taking the last `n` elements twice is the same as once, even with data
appended in between: `lastN n (lastN n a ++ b) = lastN n (a ++ b)`. -/
theorem lastN_append_lastN (n : Nat) (a b : List Nat) :
    lastN n (lastN n a ++ b) = lastN n (a ++ b) := by
  rcases Nat.le_total a.length n with h | h
  · have hz : lastN n a = a := by
      unfold lastN
      rw [Nat.sub_eq_zero_of_le h, List.drop_zero]
    rw [hz]
  · have hlast : lastN n a = a.drop (a.length - n) := rfl
    have hlen : n ≤ (a.drop (a.length - n) ++ b).length := by
      simp only [List.length_append, List.length_drop]
      omega
    have hs := lastN_suffix (a.take (a.length - n))
      (a.drop (a.length - n) ++ b) n hlen
    rw [← List.append_assoc, List.take_append_drop] at hs
    rw [hlast, ← hs]

/-- Folding `appendScrollback` over any sequence of chunks, starting from a
buffer that already respects the capacity bound, yields exactly the bounded
tail of the full concatenation. -/
theorem foldl_appendScrollback (chunks : List (List Nat)) (buf : List Nat)
    (hbuf : buf.length ≤ SCROLLBACK_MAX) :
    chunks.foldl appendScrollback buf
      = lastN SCROLLBACK_MAX (buf ++ chunks.flatten) := by
  induction chunks generalizing buf with
  | nil =>
      simp only [List.foldl_nil, List.flatten_nil, List.append_nil]
      unfold lastN
      rw [Nat.sub_eq_zero_of_le hbuf, List.drop_zero]
  | cons c cs ih =>
      rw [List.foldl_cons]
      have h1 : (appendScrollback buf c).length ≤ SCROLLBACK_MAX := by
        rw [appendScrollback_eq_lastN]
        exact lastN_length_le _ _
      rw [ih _ h1, appendScrollback_eq_lastN, lastN_append_lastN,
        List.flatten_cons, ← List.append_assoc]

/-- Byte is an ASCII decimal digit (48-57) or a semicolon (59). -/
def isDigitSemi (b : Nat) : Bool :=
  (48 ≤ b && b ≤ 57) || b == 59

/-- Drop a leading run of digits / semicolons. -/
def skipDigitsSemis : List Nat → List Nat
  | [] => []
  | b :: rest => if isDigitSemi b then skipDigitsSemis rest else b :: rest

/-- Drop one optional leading `?` (63) or `>` (62). -/
def dropPrivateMark : List Nat → List Nat
  | 63 :: rest => rest
  | 62 :: rest => rest
  | l => l

/-- Modelled from the spec: after `ESC [` has been consumed, try to match the
remainder of a device-attribute sequence — optional `?`/`>`, then
digits/semicolons, then `c` (99) — returning the bytes after the match. -/
def matchDeviceAttr (l : List Nat) : Option (List Nat) :=
  match skipDigitsSemis (dropPrivateMark l) with
  | 99 :: rest => some rest
  | _ => none

/-- Fuel-indexed left-to-right scan removing device-attribute sequences.
Every recursive call strictly shrinks the list, so fuel equal to the list
length never runs out. -/
def stripDAFuel : Nat → List Nat → List Nat
  | 0, l => l
  | _ + 1, [] => []
  | fuel + 1, 27 :: 91 :: rest2 =>
      match matchDeviceAttr rest2 with
      | some rest3 => stripDAFuel fuel rest3
      | none => 27 :: stripDAFuel fuel (91 :: rest2)
  | fuel + 1, b :: rest => b :: stripDAFuel fuel rest

/-- Modelled from the spec (section 4.2, absent from the code): remove every
device-attribute escape sequence — ESC (27), `[` (91), optional `?`/`>`,
digits/semicolons, `c` — from a byte sequence, scanning left to right. -/
def stripDeviceAttrs (l : List Nat) : List Nat :=
  stripDAFuel l.length l

/-- C1: the claim asserts that device-attribute escape sequences are removed
before storage.  The code stores chunks unmodified: appending the single
device-attribute sequence ESC `[` `?` `1` `c` leaves those five bytes in the
buffer, whereas the claimed stripped tail would be empty. -/
theorem c1_counterexample :
    ¬ (List.foldl appendScrollback [] [[27, 91, 63, 49, 99]]
        = lastN SCROLLBACK_MAX
            (stripDeviceAttrs ([[27, 91, 63, 49, 99]] : List (List Nat)).flatten)) := by
  decide

/-- C1 (amended): for every sequence of chunks appended to the scrollback
buffer, the resulting buffer equals the tail — bounded by
`SCROLLBACK_MAX` = 50000 — of the concatenation of all appended chunks,
stored verbatim (no escape-sequence stripping), and its length never exceeds
the capacity. -/
theorem c1_scrollback_bounded_tail (chunks : List (List Nat)) :
    List.foldl appendScrollback [] chunks = lastN SCROLLBACK_MAX chunks.flatten
    ∧ (List.foldl appendScrollback [] chunks).length ≤ SCROLLBACK_MAX := by
  have h := foldl_appendScrollback chunks []
    (by simp [SCROLLBACK_MAX])
  rw [List.nil_append] at h
  exact ⟨h, by rw [h]; exact lastN_length_le _ _⟩

/-- Character class `[a-zA-Z0-9_-]` from the sanitization regex in
`tmuxName` (`server.js` line 53). -/
def allowedChar (c : Char) : Bool :=
  (Char.ofNat 97 ≤ c && c ≤ Char.ofNat 122)
    || (Char.ofNat 65 ≤ c && c ≤ Char.ofNat 90)
    || (Char.ofNat 48 ≤ c && c ≤ Char.ofNat 57)
    || c == Char.ofNat 95 || c == Char.ofNat 45

/-- The dash character. -/
def dashChar : Char := Char.ofNat 45

/-- The character replace (regex: anything outside the class, global,
replaced by a dash): every character outside the
class becomes a dash. -/
def replaceBad (l : List Char) : List Char :=
  l.map (fun c => if allowedChar c then c else dashChar)

/-- The dash-run collapsing replace (regex: one or more dashes, global):
each maximal run of dashes collapses to a single dash, implemented by
dropping a dash whenever it is followed by another. -/
def collapseDashes : List Char → List Char
  | [] => []
  | [c] => [c]
  | c1 :: c2 :: rest =>
      if c1 == dashChar && c2 == dashChar then collapseDashes (c2 :: rest)
      else c1 :: collapseDashes (c2 :: rest)

/-- Remove one leading dash, as the `^-` alternative of `/^-|-$/g` does. -/
def dropLeadDash : List Char → List Char
  | [] => []
  | c :: rest => if c == dashChar then rest else c :: rest

/-- The edge-dash trimming replace (regex: leading dash or trailing dash,
global, replaced by nothing): remove one leading and one trailing dash. -/
def trimDashes (l : List Char) : List Char :=
  (dropLeadDash (dropLeadDash l).reverse).reverse

/-- The sanitization pipeline of `tmuxName` (`server.js` lines 52-55),
including the `|| \x27session\x27` fallback for an empty result. -/
def sanitizeFolder (s : String) : String :=
  let t := trimDashes (collapseDashes (replaceBad s.data))
  if t.isEmpty then "session" else String.mk t

/-- Node `path.basename` for POSIX paths: ignore trailing slashes, then take
everything after the last remaining slash. -/
def basename (s : String) : String :=
  let noTrail := (s.data.reverse.dropWhile (fun c => c == Char.ofNat 47)).reverse
  String.mk (noTrail.reverse.takeWhile (fun c => c != Char.ofNat 47)).reverse

/-- Function `tmuxName` (`server.js` lines 51-57): sanitized basename of the working
directory, a dash, then the CLI (agent kind). -/
def tmuxName (cli cwd : String) : String :=
  sanitizeFolder (basename cwd) ++ "-" ++ cli

theorem collapseDashes_subset (l : List Char) (c : Char)
    (hc : c ∈ collapseDashes l) : c ∈ l := by
  induction l with
  | nil => simp [collapseDashes] at hc
  | cons c1 rest ih =>
      cases rest with
      | nil => simp [collapseDashes] at hc; simp [hc]
      | cons c2 rest2 =>
          rw [collapseDashes] at hc
          split at hc
          · exact List.mem_cons_of_mem _ (ih hc)
          · rcases List.mem_cons.mp hc with h | h
            · exact h ▸ List.mem_cons_self _ _
            · exact List.mem_cons_of_mem _ (ih h)

theorem dropLeadDash_subset (l : List Char) (c : Char)
    (hc : c ∈ dropLeadDash l) : c ∈ l := by
  cases l with
  | nil => simp [dropLeadDash] at hc
  | cons c1 rest =>
      rw [dropLeadDash] at hc
      split at hc
      · exact List.mem_cons_of_mem _ hc
      · exact hc

theorem trimDashes_subset (l : List Char) (c : Char)
    (hc : c ∈ trimDashes l) : c ∈ l := by
  unfold trimDashes at hc
  rw [List.mem_reverse] at hc
  have h1 := dropLeadDash_subset _ _ hc
  rw [List.mem_reverse] at h1
  exact dropLeadDash_subset _ _ h1

theorem replaceBad_allowed (l : List Char) (c : Char)
    (hc : c ∈ replaceBad l) : allowedChar c = true := by
  unfold replaceBad at hc
  rcases List.mem_map.mp hc with ⟨a, _, ha⟩
  by_cases h : allowedChar a = true
  · rw [← ha]
    simp [h]
  · have : c = dashChar := by
      rw [← ha]
      simp [h]
    rw [this]
    decide

theorem sanitizeFolder_allowed (s : String) (c : Char)
    (hc : c ∈ (sanitizeFolder s).data) : allowedChar c = true := by
  unfold sanitizeFolder at hc
  dsimp only at hc
  split at hc
  · -- fallback "session"
    fin_cases hc <;> decide
  · exact replaceBad_allowed _ _
      (collapseDashes_subset _ _ (trimDashes_subset _ _ hc))

/-- C7: the host-session name is a pure function of the working directory
basename and the agent kind; sanitization replaces disallowed characters by
dashes, collapses dash runs, trims edge dashes, and falls back to
`"session"` when empty; sanitizing `"My Proj!!"` yields `"My-Proj"` and the
combined name appends the agent kind. -/
theorem c7_tmuxName_deterministic :
    (∀ cli cwd1 cwd2, basename cwd1 = basename cwd2 →
        tmuxName cli cwd1 = tmuxName cli cwd2)
    ∧ sanitizeFolder "My Proj!!" = "My-Proj"
    ∧ tmuxName "A" "/home/u/My Proj!!" = "My-Proj-A"
    ∧ sanitizeFolder "!!!" = "session"
    ∧ ∀ s c, c ∈ (sanitizeFolder s).data → allowedChar c = true := by
  refine ⟨?_, by decide, by decide, by decide, sanitizeFolder_allowed⟩
  intro cli cwd1 cwd2 h
  unfold tmuxName
  rw [h]

/-- C7 witness: two directories with the same basename get the same derived
session name. -/
theorem c7_witness :
    basename "/a/My Proj!!" = basename "/b/c/My Proj!!"
    ∧ tmuxName "claude" "/a/My Proj!!" = tmuxName "claude" "/b/c/My Proj!!" :=
  ⟨by decide,
    c7_tmuxName_deterministic.1 "claude" "/a/My Proj!!" "/b/c/My Proj!!"
      (by decide)⟩

/-- The `sessionInfo` object from `server.js` line 22: `active`, `cwd`,
`cli`, `sessionName`, `sessionType` (JS `null` becomes `none`). -/
structure SessionInfo where
  active : Bool
  cwd : Option String
  cli : Option String
  sessionName : Option String
  sessionType : Option String
deriving DecidableEq

/-- The all-null inactive record every teardown path assigns. -/
def inactiveInfo : SessionInfo :=
  { active := false, cwd := none, cli := none,
    sessionName := none, sessionType := none }

/-- Contents of the persisted `.last-session.json` file. -/
structure LastSession where
  sessionType : String
  cli : Option String
  cwd : Option String
  sessionName : String
deriving DecidableEq

/-- The module-level mutable state of `server.js`: the active pty handle
(identified by a unique numeric tag, `none` when absent), the session
record, the scrollback buffer, the persisted last-session file, plus the
tag counter used to give each spawned handle a fresh identity. -/
structure ServerState where
  ptyProcess : Option Nat
  sessionInfo : SessionInfo
  scrollback : List Nat
  lastSession : Option LastSession
  nextId : Nat
deriving DecidableEq

/-- State at bridge startup (`server.js` lines 21-23). -/
def initialState : ServerState :=
  { ptyProcess := none, sessionInfo := inactiveInfo, scrollback := [],
    lastSession := none, nextId := 0 }

/-- Externally observable side effects of an operation: a broadcast state
message, broadcast output bytes, killing the pty attachment, or asking tmux
to destroy a host session. -/
inductive SrvEvent where
  | stateMsg (info : SessionInfo)
  | outData (chunk : List Nat)
  | killProc (id : Nat)
  | tmuxKill (name : String)
deriving DecidableEq

/-- HTTP-level responses of the lifecycle endpoints. -/
inductive ApiResp where
  | ok
  | conflict
  | badRequest (msg : String)
deriving DecidableEq

/-- Function `spawnSession` (`server.js` lines 59-99): spawn tmux with a derived
session name, install the handle with a fresh identity, populate the record,
clear the scrollback, persist the handoff record, broadcast the new state. -/
def spawnSession (cli cwd : String) (s : ServerState) :
    ServerState × List SrvEvent :=
  let name := tmuxName cli cwd
  let info : SessionInfo :=
    { active := true, cwd := some cwd, cli := some cli,
      sessionName := some name, sessionType := some "managed" }
  ({ ptyProcess := some s.nextId, sessionInfo := info, scrollback := [],
     lastSession := some
       { sessionType := "managed", cli := some cli, cwd := some cwd,
         sessionName := name },
     nextId := s.nextId + 1 },
   [SrvEvent.stateMsg info])

/-- Function `attachSession` (`server.js` lines 101-135): attach to a pre-existing
tmux session by name; working directory and CLI are unknown. -/
def attachSession (name : String) (s : ServerState) :
    ServerState × List SrvEvent :=
  let info : SessionInfo :=
    { active := true, cwd := none, cli := none,
      sessionName := some name, sessionType := some "custom" }
  ({ ptyProcess := some s.nextId, sessionInfo := info, scrollback := [],
     lastSession := some
       { sessionType := "custom", cli := none, cwd := none,
         sessionName := name },
     nextId := s.nextId + 1 },
   [SrvEvent.stateMsg info])

/-- The `proc.onData` callback (`server.js` lines 85-88): append the chunk to
the scrollback and broadcast it.  The callback does not check whether its
handle is still the active one. -/
def applyData (chunk : List Nat) (s : ServerState) :
    ServerState × List SrvEvent :=
  ({ s with scrollback := appendScrollback s.scrollback chunk },
   [SrvEvent.outData chunk])

/-- The `proc.onExit` callback (`server.js` lines 90-98): only if the exiting
handle is still the referenced one, clear the record and the handle, delete
the persisted file, and broadcast the inactive state.  The scrollback buffer
is not touched. -/
def applyExit (id : Nat) (s : ServerState) : ServerState × List SrvEvent :=
  if s.ptyProcess = some id then
    ({ s with
        sessionInfo := inactiveInfo,
        ptyProcess := none,
        lastSession := none },
     [SrvEvent.stateMsg inactiveInfo])
  else
    (s, [])

/-- Endpoint `POST /api/session/detach` (`server.js` lines 302-314): clear handle,
record, scrollback and persisted file, broadcast the inactive state, respond
ok, then kill the grabbed pty attachment if there was one. -/
def applyDetach (s : ServerState) :
    ServerState × List SrvEvent × ApiResp :=
  let evs := SrvEvent.stateMsg inactiveInfo ::
    (match s.ptyProcess with
     | some id => [SrvEvent.killProc id]
     | none => [])
  ({ ptyProcess := none, sessionInfo := inactiveInfo, scrollback := [],
     lastSession := none, nextId := s.nextId },
   evs, ApiResp.ok)

/-- Endpoint `POST /api/session/kill` (`server.js` lines 317-336): same bookkeeping as
detach, plus a best-effort `tmux kill-session` for the recorded host-session
name, then killing the grabbed pty attachment. -/
def applyKill (s : ServerState) :
    ServerState × List SrvEvent × ApiResp :=
  let evs := SrvEvent.stateMsg inactiveInfo ::
    ((match s.sessionInfo.sessionName with
      | some n => [SrvEvent.tmuxKill n]
      | none => []) ++
     (match s.ptyProcess with
      | some id => [SrvEvent.killProc id]
      | none => []))
  ({ ptyProcess := none, sessionInfo := inactiveInfo, scrollback := [],
     lastSession := none, nextId := s.nextId },
   evs, ApiResp.ok)

/-- Request body of `POST /api/session/start`. -/
structure StartBody where
  cwd : Option String
  cli : Option String
  sessionName : Option String

/-- The managed-launch validation tail of the start handler (`server.js`
lines 288-298).  `statIsDir` models `fs.statSync(cwd).isDirectory()`:
`none` when `statSync` throws, otherwise the directory check result. -/
def startValidate (statIsDir : String → Option Bool) (body : StartBody)
    (s : ServerState) : ServerState × List SrvEvent × ApiResp :=
  match body.cwd, body.cli with
  | some cwd, some cli =>
      if cwd == "" || cli == "" then
        (s, [], ApiResp.badRequest "Missing cwd or cli")
      else if !(cli == "claude" || cli == "gemini") then
        (s, [], ApiResp.badRequest "cli must be claude or gemini")
      else
        match statIsDir cwd with
        | none => (s, [], ApiResp.badRequest "Invalid cwd")
        | some false => (s, [], ApiResp.badRequest "cwd is not a directory")
        | some true =>
            let p := spawnSession cli cwd s
            (p.1, p.2, ApiResp.ok)
  | _, _ => (s, [], ApiResp.badRequest "Missing cwd or cli")

/-- Endpoint `POST /api/session/start` (`server.js` lines 275-299): refuse with 409
when a session is active; otherwise a truthy `sessionName` takes the
adopted-attach path immediately, before any of the cwd/cli validation;
otherwise validate and spawn a managed session. -/
def applyStart (statIsDir : String → Option Bool) (body : StartBody)
    (s : ServerState) : ServerState × List SrvEvent × ApiResp :=
  if s.sessionInfo.active then
    (s, [], ApiResp.conflict)
  else
    match body.sessionName with
    | some name =>
        if name == "" then startValidate statIsDir body s
        else
          let p := attachSession name s
          (p.1, p.2, ApiResp.ok)
    | none => startValidate statIsDir body s

/-- A concrete mid-session state: an active managed session with handle 0
and one byte of scrollback. -/
def exActiveState : ServerState :=
  { ptyProcess := some 0,
    sessionInfo :=
      { active := true, cwd := some "/w", cli := some "claude",
        sessionName := some "w-claude", sessionType := some "managed" },
    scrollback := [65],
    lastSession := some
      { sessionType := "managed", cli := some "claude", cwd := some "/w",
        sessionName := "w-claude" },
    nextId := 1 }

/-- C3: the claim says detach, kill and subprocess exit all clear the
Session Record and the Scrollback Buffer together.  The exit callback clears
the record but leaves the scrollback buffer untouched: from an active
session with one buffered byte, the currently-active handle exiting leaves
the record inactive yet the buffer non-empty. -/
theorem c3_counterexample :
    (applyExit 0 exActiveState).1.sessionInfo.active = false
    ∧ (applyExit 0 exActiveState).1.scrollback ≠ [] := by
  decide

/-- C3 (amended): detach and kill clear the Session Record and the
Scrollback Buffer together; a subprocess exit of the currently-referenced
handle clears the Session Record and the handle but leaves the Scrollback
Buffer unchanged (it is only cleared when the next session starts). -/
theorem c3_session_end_clearing (s : ServerState) :
    (applyDetach s).1.sessionInfo = inactiveInfo
    ∧ (applyDetach s).1.scrollback = []
    ∧ (applyKill s).1.sessionInfo = inactiveInfo
    ∧ (applyKill s).1.scrollback = []
    ∧ ∀ id, s.ptyProcess = some id →
        (applyExit id s).1.sessionInfo = inactiveInfo
        ∧ (applyExit id s).1.ptyProcess = none
        ∧ (applyExit id s).1.scrollback = s.scrollback := by
  refine ⟨rfl, rfl, rfl, rfl, ?_⟩
  intro id hid
  unfold applyExit
  rw [if_pos hid]
  exact ⟨rfl, rfl, rfl⟩

/-- C3 witness: the amended statement at the concrete active state. -/
theorem c3_witness :
    exActiveState.ptyProcess = some 0
    ∧ (applyExit 0 exActiveState).1.sessionInfo = inactiveInfo
    ∧ (applyExit 0 exActiveState).1.scrollback = exActiveState.scrollback :=
  ⟨rfl,
    ((c3_session_end_clearing exActiveState).2.2.2.2 0 rfl).1,
    ((c3_session_end_clearing exActiveState).2.2.2.2 0 rfl).2.2⟩

/-- C4: an exit notification from a handle that is not the currently
referenced process changes nothing and emits nothing; and a session started
right after a kill gets a handle identity different from the killed one
(handle tags are strictly increasing), so the stale exit of the old handle
cannot clear the new session. -/
theorem c4_stale_exit_ignored :
    (∀ s id, s.ptyProcess ≠ some id → applyExit id s = (s, []))
    ∧ (∀ s id cli cwd,
        (∀ j, s.ptyProcess = some j → j < s.nextId) →
        s.ptyProcess = some id →
        (spawnSession cli cwd (applyKill s).1).1.ptyProcess ≠ some id
        ∧ applyExit id (spawnSession cli cwd (applyKill s).1).1
            = ((spawnSession cli cwd (applyKill s).1).1, [])) := by
  constructor
  · intro s id h
    unfold applyExit
    rw [if_neg h]
  · intro s id cli cwd hwf hid
    have hlt : id < s.nextId := hwf id hid
    have hne : (spawnSession cli cwd (applyKill s).1).1.ptyProcess
        ≠ some id := by
      unfold spawnSession applyKill
      dsimp only
      intro hcontra
      have : s.nextId = id := Option.some.inj hcontra
      omega
    refine ⟨hne, ?_⟩
    unfold applyExit
    rw [if_neg hne]

/-- C4 witness: from the concrete active state (handle 0), kill then start a
new session; the new handle is 1 and the stale exit of handle 0 is a
no-op. -/
theorem c4_witness :
    exActiveState.ptyProcess = some 0
    ∧ (spawnSession "claude" "/w" (applyKill exActiveState).1).1.ptyProcess
        ≠ some 0
    ∧ applyExit 0 (spawnSession "claude" "/w" (applyKill exActiveState).1).1
        = ((spawnSession "claude" "/w" (applyKill exActiveState).1).1, []) :=
  ⟨rfl,
    (c4_stale_exit_ignored.2 exActiveState 0 "claude" "/w"
      (by intro j hj; cases hj; decide) rfl).1,
    (c4_stale_exit_ignored.2 exActiveState 0 "claude" "/w"
      (by intro j hj; cases hj; decide) rfl).2⟩

/-- C5: start while a session is active always responds 409 Conflict and the
entire server state — record, scrollback, handle, persisted file — is
returned unchanged, with no broadcast. -/
theorem c5_start_conflict (statIsDir : String → Option Bool)
    (body : StartBody) (s : ServerState)
    (hactive : s.sessionInfo.active = true) :
    applyStart statIsDir body s = (s, [], ApiResp.conflict) := by
  unfold applyStart
  rw [if_pos hactive]

/-- C5 witness: a start request against the concrete active session. -/
theorem c5_witness :
    exActiveState.sessionInfo.active = true
    ∧ applyStart (fun _ => some true)
        { cwd := some "/w", cli := some "claude", sessionName := none }
        exActiveState
      = (exActiveState, [], ApiResp.conflict) :=
  ⟨rfl,
    c5_start_conflict (fun _ => some true)
      { cwd := some "/w", cli := some "claude", sessionName := none }
      exActiveState rfl⟩

/-- C9: kill and detach on an idle bridge are safe no-ops: both respond ok,
broadcast only the already-inactive state, and leave the cleared state
unchanged. -/
theorem c9_idle_noop (s : ServerState)
    (h1 : s.sessionInfo = inactiveInfo) (h2 : s.scrollback = [])
    (h3 : s.ptyProcess = none) (h4 : s.lastSession = none) :
    applyDetach s = (s, [SrvEvent.stateMsg inactiveInfo], ApiResp.ok)
    ∧ applyKill s = (s, [SrvEvent.stateMsg inactiveInfo], ApiResp.ok) := by
  cases s
  simp only at h1 h2 h3 h4
  subst h1 h2 h3 h4
  constructor
  · unfold applyDetach
    rfl
  · unfold applyKill
    rfl

/-- C9 witness: kill and detach on the startup state. -/
theorem c9_witness :
    applyDetach initialState
      = (initialState, [SrvEvent.stateMsg inactiveInfo], ApiResp.ok)
    ∧ applyKill initialState
      = (initialState, [SrvEvent.stateMsg inactiveInfo], ApiResp.ok) :=
  c9_idle_noop initialState rfl rfl rfl rfl

/-- C10: when the bridge is idle, a start request with a truthy (non-empty)
sessionName attaches immediately: it succeeds with ok for every value of the
cwd and cli fields, every filesystem oracle and every non-empty name, and
the resulting record is active with unknown cwd and cli, origin custom. -/
theorem c10_adopted_attach (statIsDir : String → Option Bool)
    (cwd cli : Option String) (name : String) (s : ServerState)
    (hidle : s.sessionInfo.active = false) (hname : name ≠ "") :
    (applyStart statIsDir { cwd := cwd, cli := cli, sessionName := some name }
        s).2.2 = ApiResp.ok
    ∧ (applyStart statIsDir
        { cwd := cwd, cli := cli, sessionName := some name } s).1.sessionInfo
      = { active := true, cwd := none, cli := none,
          sessionName := some name, sessionType := some "custom" }
    ∧ (applyStart statIsDir
        { cwd := cwd, cli := cli, sessionName := some name } s).1.scrollback
      = [] := by
  unfold applyStart
  rw [hidle]
  simp only [Bool.false_eq_true, if_false]
  have hbeq : (name == "") = false := by
    rw [beq_eq_false_iff_ne]
    exact hname
  rw [hbeq]
  exact ⟨rfl, rfl, rfl⟩

/-- C10 witness: an idle bridge, a nonsense cwd/cli, an fs oracle that
rejects everything, and a name full of characters the managed path would
reject — the adopted attach still succeeds. -/
theorem c10_witness :
    initialState.sessionInfo.active = false
    ∧ ("a b!!" : String) ≠ ""
    ∧ (applyStart (fun _ => none)
        { cwd := some "", cli := some "nope", sessionName := some "a b!!" }
        initialState).2.2 = ApiResp.ok
    ∧ (applyStart (fun _ => none)
        { cwd := some "", cli := some "nope", sessionName := some "a b!!" }
        initialState).1.sessionInfo
      = { active := true, cwd := none, cli := none,
          sessionName := some "a b!!", sessionType := some "custom" } :=
  ⟨rfl, by decide,
    (c10_adopted_attach (fun _ => none) (some "") (some "nope") "a b!!"
      initialState rfl (by decide)).1,
    (c10_adopted_attach (fun _ => none) (some "") (some "nope") "a b!!"
      initialState rfl (by decide)).2.1⟩

/-- What the message handler (`server.js` lines 359-372) observes of a
successful `JSON.parse` result: the `.type` property when it is a string
(`none` for any other value, making the strict comparison with `"resize"`
fail), and the numeric coercions of `.cols` and `.rows` (`none` models NaN,
which arises for an absent property or a non-numeric value). -/
structure JsMsg where
  type : Option String
  cols : Option ℚ
  rows : Option ℚ
deriving DecidableEq

/-- Effect of one inbound WebSocket message: a pty resize (values may be
NaN, modelled as `none`), a verbatim raw write, or nothing. -/
inductive WsAction where
  | resize (cols rows : Option ℚ)
  | write (raw : List Nat)
  | ignore
deriving DecidableEq

/-- JS `Math.round` on a number-or-NaN: round half towards positive
infinity; NaN propagates. -/
def mathRound : Option ℚ → Option ℚ
  | none => none
  | some q => some ((⌊q + 1 / 2⌋ : ℤ) : ℚ)

/-- JS `Math.max(1, x)`: NaN propagates (`Math.max` with a NaN argument is
NaN), otherwise the larger of 1 and x. -/
def jsMax1 : Option ℚ → Option ℚ
  | none => none
  | some q => some (max 1 q)

/-- The `ws.on(message)` handler (`server.js` lines 359-372).  `parsed` is
the outcome of `JSON.parse` on the message text (`none` when it throws).  On
parse success: if the type is `"resize"` and a pty is live, forward
`Math.max(1, Math.round(cols/rows))`; any other parsed message does nothing;
in every parse-success case the handler returns without writing.  On parse
failure the whole raw message is written to the pty verbatim. -/
def handleWsMessage (parsed : Option JsMsg) (hasPty : Bool)
    (raw : List Nat) : WsAction :=
  match parsed with
  | some msg =>
      if msg.type == some "resize" && hasPty then
        WsAction.resize (jsMax1 (mathRound msg.cols))
          (jsMax1 (mathRound msg.rows))
      else
        WsAction.ignore
  | none => if hasPty then WsAction.write raw else WsAction.ignore

/-- C2: the fall-back half of the claim holds — any message on which
`JSON.parse` throws is written to the pty verbatim, byte for byte.  But the
claim that no raw keystroke data is ever lost fails: the single byte `"1"`
(0x31), the keystroke a user typing the digit 1 produces, parses as the JSON
number 1, whose `.type` is undefined, so the handler returns without
writing and the keystroke is silently dropped. -/
theorem c2_digit_keystroke_lost :
    handleWsMessage (some { type := none, cols := none, rows := none })
        true [49] = WsAction.ignore
    ∧ handleWsMessage (some { type := none, cols := none, rows := none })
        true [49] ≠ WsAction.write [49]
    ∧ ∀ raw, handleWsMessage none true raw = WsAction.write raw := by
  refine ⟨rfl, by decide, fun raw => rfl⟩

/-- The forwarded value is an actual number that is at least 1 — what the
spec means by clamped to a minimum of 1. -/
def clampedMin1 (q : Option ℚ) : Prop :=
  ∃ x, q = some x ∧ 1 ≤ x

/-- C8: the claim says the forwarded cols/rows of every structured resize
message are clamped to a minimum of 1.  A resize message without numeric
cols/rows — e.g. the five-field-free text of a bare resize object, where
`.cols` coerces to NaN — forwards NaN, which is not a number at least 1. -/
theorem c8_counterexample :
    handleWsMessage
        (some { type := some "resize", cols := none, rows := none }) true []
      = WsAction.resize none none
    ∧ ¬ clampedMin1 none := by
  refine ⟨rfl, ?_⟩
  rintro ⟨x, hx, -⟩
  cases hx

/-- C8 (amended): for every structured resize message whose cols and rows
coerce to numbers, the forwarded values are `max 1 (round _)`, hence at
least 1; a resize message whose cols/rows coerce to NaN forwards NaN
unclamped; every parsed message whose type is not the string `"resize"` is
ignored without error. -/
theorem c8_resize_clamped :
    (∀ (msg : JsMsg) (hasPty : Bool) raw, msg.type ≠ some "resize" →
        handleWsMessage (some msg) hasPty raw = WsAction.ignore)
    ∧ (∀ (qc qr : ℚ) raw, ∃ c r,
        handleWsMessage
            (some { type := some "resize", cols := some qc, rows := some qr })
            true raw
          = WsAction.resize (some c) (some r) ∧ 1 ≤ c ∧ 1 ≤ r)
    ∧ (∀ raw, handleWsMessage
        (some { type := some "resize", cols := none, rows := none }) true raw
        = WsAction.resize none none) := by
  refine ⟨?_, ?_, fun raw => rfl⟩
  · intro msg hasPty raw hne
    have hbeq : (msg.type == some "resize") = false := by
      rw [beq_eq_false_iff_ne]
      exact hne
    simp [handleWsMessage, hbeq]
  · intro qc qr raw
    refine ⟨max 1 ((⌊qc + 1 / 2⌋ : ℤ) : ℚ), max 1 ((⌊qr + 1 / 2⌋ : ℤ) : ℚ),
      rfl, le_max_left _ _, le_max_left _ _⟩

/-- C8 witness: a parsed non-resize message (the JSON number 7 — no `.type`)
is ignored, and a fractional resize is clamped and rounded. -/
theorem c8_witness :
    (some (none : Option String) ≠ some (some "resize")
      ∧ handleWsMessage (some { type := none, cols := some 7, rows := some 7 })
          true [123] = WsAction.ignore)
    ∧ ∃ c r,
        handleWsMessage
            (some { type := some "resize", cols := some (1 / 2),
                    rows := some 300 }) true []
          = WsAction.resize (some c) (some r) ∧ 1 ≤ c ∧ 1 ≤ r :=
  ⟨⟨by decide,
      c8_resize_clamped.1 { type := none, cols := some 7, rows := some 7 }
        true [123] (by decide)⟩,
    c8_resize_clamped.2.1 (1 / 2) 300 []⟩

/-- A message as received by one viewer: a state message, the one-shot
scrollback snapshot sent at connection time, or a live output chunk. -/
inductive ViewerMsg where
  | vState (info : SessionInfo)
  | vSnapshot (bytes : List Nat)
  | vChunk (chunk : List Nat)
deriving DecidableEq

/-- One connected viewer: the session record and scrollback contents at the
moment it connected (ghost data used to state the ordering guarantee), and
the full list of messages it has received, oldest first. -/
structure Viewer where
  joinedInfo : SessionInfo
  joinedSb : List Nat
  log : List ViewerMsg

/-- The bridge state plus all connected viewers. -/
structure World where
  srv : ServerState
  viewers : List Viewer

/-- The `wss.on(connection)` handler (`server.js` lines 343-357): send the
current session record as a state message, then — only if a session is
active and the scrollback buffer non-empty — the buffer snapshot, once. -/
def connectMsgs (s : ServerState) : List ViewerMsg :=
  ViewerMsg.vState s.sessionInfo ::
    (if s.sessionInfo.active = true ∧ s.scrollback ≠ [] then
      [ViewerMsg.vSnapshot s.scrollback]
    else
      [])

/-- A new viewer connects: it records the current state and receives the
connection messages; nothing is sent to the other viewers. -/
def doConnect (w : World) : World :=
  { srv := w.srv,
    viewers := w.viewers ++
      [{ joinedInfo := w.srv.sessionInfo, joinedSb := w.srv.scrollback,
         log := connectMsgs w.srv }] }

/-- How a broadcast server event appears on a viewer channel: state
broadcasts and live output chunks are delivered; process/host kills are not
viewer messages.  The scrollback snapshot is never broadcast — it is sent
only by the connection handler. -/
def eventMsg : SrvEvent → Option ViewerMsg
  | SrvEvent.stateMsg info => some (ViewerMsg.vState info)
  | SrvEvent.outData c => some (ViewerMsg.vChunk c)
  | SrvEvent.killProc _ => none
  | SrvEvent.tmuxKill _ => none

/-- Append the deliverable part of a broadcast to one viewer log. -/
def deliver (evs : List SrvEvent) (v : Viewer) : Viewer :=
  { v with log := v.log ++ evs.filterMap eventMsg }

/-- The server-side transitions: pty output, a pty exit notification, and
the three lifecycle endpoints. -/
inductive SrvOp where
  | data (chunk : List Nat)
  | exit (id : Nat)
  | detach
  | kill
  | start (statIsDir : String → Option Bool) (body : StartBody)

def applyOp : SrvOp → ServerState → ServerState × List SrvEvent
  | SrvOp.data c, s => applyData c s
  | SrvOp.exit id, s => applyExit id s
  | SrvOp.detach, s => ((applyDetach s).1, (applyDetach s).2.1)
  | SrvOp.kill, s => ((applyKill s).1, (applyKill s).2.1)
  | SrvOp.start fs body, s =>
      ((applyStart fs body s).1, (applyStart fs body s).2.1)

/-- A server operation updates the bridge state and broadcasts its events to
every connected viewer. -/
def doOp (o : SrvOp) (w : World) : World :=
  { srv := (applyOp o w.srv).1,
    viewers := w.viewers.map (deliver (applyOp o w.srv).2) }

/-- One step of the bridge: either a viewer connects, or a server operation
runs. -/
inductive Step : World → World → Prop where
  | connect (w : World) : Step w (doConnect w)
  | op (o : SrvOp) (w : World) : Step w (doOp o w)

def initialWorld : World := { srv := initialState, viewers := [] }

inductive Reachable : World → Prop where
  | init : Reachable initialWorld
  | step {w w2 : World} : Reachable w → Step w w2 → Reachable w2

/-- No scrollback snapshot occurs in the list. -/
def noSnap (l : List ViewerMsg) : Prop :=
  ∀ m ∈ l, ∀ b, m ≠ ViewerMsg.vSnapshot b

/-- The ordering guarantee for one viewer: its log is exactly one state
message carrying the session record current when it connected, then the
scrollback snapshot — present exactly when a session was active with
non-empty scrollback at connection time — and then only state messages and
live chunks, never another snapshot. -/
def logOk (v : Viewer) : Prop :=
  ∃ tail,
    v.log = ViewerMsg.vState v.joinedInfo ::
      ((if v.joinedInfo.active = true ∧ v.joinedSb ≠ [] then
          [ViewerMsg.vSnapshot v.joinedSb]
        else
          []) ++ tail)
    ∧ noSnap tail

theorem noSnap_filterMap (evs : List SrvEvent) :
    noSnap (evs.filterMap eventMsg) := by
  intro m hm b
  rcases List.mem_filterMap.mp hm with ⟨e, _, he⟩
  cases e with
  | stateMsg info =>
      cases he
      intro h
      cases h
  | outData c =>
      cases he
      intro h
      cases h
  | killProc id => cases he
  | tmuxKill n => cases he

theorem noSnap_append (l1 l2 : List ViewerMsg) (h1 : noSnap l1)
    (h2 : noSnap l2) : noSnap (l1 ++ l2) := by
  intro m hm
  rcases List.mem_append.mp hm with h | h
  · exact h1 m h
  · exact h2 m h

theorem logOk_deliver (evs : List SrvEvent) (v : Viewer) (h : logOk v) :
    logOk (deliver evs v) := by
  obtain ⟨tail, hlog, hns⟩ := h
  refine ⟨tail ++ evs.filterMap eventMsg, ?_,
    noSnap_append _ _ hns (noSnap_filterMap evs)⟩
  unfold deliver
  dsimp only
  rw [hlog]
  simp [List.append_assoc]

/-- C6: in every reachable world, every viewer has received, in order, first
exactly one state message with the session record of the moment it
connected, then the scrollback snapshot exactly when a session was active
with non-empty scrollback at that moment, then only live chunks and state
broadcasts — the snapshot is never re-sent and live data never precedes
it. -/
theorem c6_viewer_ordering (w : World) (hw : Reachable w) :
    ∀ v ∈ w.viewers, logOk v := by
  induction hw with
  | init =>
      intro v hv
      cases hv
  | step _ hstep ih =>
      cases hstep with
      | connect w0 =>
          intro v hv
          unfold doConnect at hv
          dsimp only at hv
          rcases List.mem_append.mp hv with h | h
          · exact ih v h
          · rcases List.mem_singleton.mp h with rfl
            refine ⟨[], ?_, ?_⟩
            · dsimp only
              rw [List.append_nil]
              rfl
            · intro m hm
              cases hm
      | op o w0 =>
          intro v hv
          unfold doOp at hv
          dsimp only at hv
          rcases List.mem_map.mp hv with ⟨v0, hv0, rfl⟩
          exact logOk_deliver _ v0 (ih v0 hv0)

/-- C6 witness: the world reached by one connection at startup is reachable
and its single viewer satisfies the ordering guarantee. -/
theorem c6_witness :
    logOk { joinedInfo := inactiveInfo, joinedSb := [],
            log := connectMsgs initialState } :=
  c6_viewer_ordering (doConnect initialWorld)
    (Reachable.step Reachable.init (Step.connect initialWorld))
    { joinedInfo := inactiveInfo, joinedSb := [],
      log := connectMsgs initialState }
    (List.mem_singleton.mpr rfl)

end Vibeterm
